import Mathlib

/-!
Verification of the seccomp policy builders in `rule.h` of the
C-Sandbox-2025Team1 repository.

The file shallowly embeds the three profile builders (`c_cpp_rules`,
`python3_rules`, `general_rules`).  libseccomp calls are modelled by an
explicit environment `Env` that says whether context creation, each rule
addition, and the final load succeed; pointers (`scmp_datum_t`) and
syscall arguments are modelled as `Nat`.  A filter context is a default
action plus the ordered list of rules added to it; a policy is evaluated
on a syscall and its argument vector by taking the first matching rule,
falling back to the default action.
-/

/-- Seccomp filter actions used by the source: `SCMP_ACT_KILL` and
`SCMP_ACT_ALLOW`. -/
inductive SAction where
  | KILL
  | ALLOW
deriving DecidableEq

/-- The syscall identifiers (`SCMP_SYS (...)`) appearing in `rule.h`. -/
inductive Sysc where
  | execve
  | read | fstat | mmap | mprotect | munmap | uname
  | arch_prctl | brk | access | exit_group | close | readlink
  | sysinfo | write | writev | lseek | clock_gettime | fcntl
  | pread64 | faccessat | newfstatat | set_tid_address
  | set_robust_list | rseq | prlimit64 | futex | getrandom
  | socket | connect | bind | listen | accept | sendto
  | recvfrom | setsockopt | getsockopt | getpeername | getsockname
  | open_ | openat | dup | dup2 | dup3
  | clone | fork | vfork | kill
deriving DecidableEq

/-- An argument comparison attached to a rule: `SCMP_A0 (SCMP_CMP_EQ, d)`,
`SCMP_A0 (SCMP_CMP_NE, d)` or `SCMP_CMP (i, SCMP_CMP_MASKED_EQ, mask, d)`. -/
inductive ArgCmp where
  | eq (arg : Nat) (datum : Nat)
  | ne (arg : Nat) (datum : Nat)
  | maskedEq (arg : Nat) (mask : Nat) (datum : Nat)
deriving DecidableEq

/-- One rule handed to `seccomp_rule_add`: an action, a syscall, and the
argument comparisons (0 or 1 of them in this source). -/
structure Rule where
  action : SAction
  sysc : Sysc
  conds : List ArgCmp
deriving DecidableEq

/-- A filter context (`scmp_filter_ctx` contents): the default action
fixed by `seccomp_init` plus the rules added so far, in order. -/
structure FilterCtx where
  defaultAction : SAction
  rules : List Rule
deriving DecidableEq

/-- `O_WRONLY` on Linux. -/
def O_WRONLY : Nat := 1

/-- `O_RDWR` on Linux. -/
def O_RDWR : Nat := 2

/-- `#define LOAD_SECCOMP_FAILED 1` from `rule.h`. -/
def LOAD_SECCOMP_FAILED : Nat := 1

/-- Does one argument comparison hold on a concrete argument vector? -/
def evalCond (args : Nat → Nat) : ArgCmp → Bool
  | .eq i d => args i == d
  | .ne i d => args i != d
  | .maskedEq i mask d => (args i &&& mask) == d

/-- Does a rule apply to a given syscall invocation? -/
def matchRule (s : Sysc) (args : Nat → Nat) (r : Rule) : Bool :=
  decide (s = r.sysc) && r.conds.all (evalCond args)

/-- The action the installed filter takes on a syscall invocation: the
action of the first rule matching it, or the default action if no rule
matches. -/
def evalPolicy (p : FilterCtx) (s : Sysc) (args : Nat → Nat) : SAction :=
  match p.rules.find? (matchRule s args) with
  | some r => r.action
  | none => p.defaultAction

/-- Environment of the libseccomp calls: whether `seccomp_init` returns a
non-null context, whether `seccomp_rule_add` succeeds on a given rule,
and whether `seccomp_load` succeeds. -/
structure Env where
  initOk : Bool
  addOk : Rule → Bool
  loadOk : Bool

/-- What one of the builder functions did by the time it returned: its
return value, whether a context was allocated (`seccomp_init` succeeded),
whether `seccomp_release` was called before returning, whether
`seccomp_load` was invoked, and the policy installed in the kernel (on a
successful load). -/
structure Outcome where
  ret : Nat
  ctxAllocated : Bool
  released : Bool
  loadInvoked : Bool
  loadedPolicy : Option FilterCtx
deriving DecidableEq

/-- One `seccomp_rule_add` call: appends the rule on success. -/
def addRule (env : Env) (c : FilterCtx) (r : Rule) : Option FilterCtx :=
  if env.addOk r then some { c with rules := c.rules ++ [r] } else none

/-- A sequence of `seccomp_rule_add` calls, aborting at the first
failure (as the early `return LOAD_SECCOMP_FAILED` statements do). -/
def addRules (env : Env) (c : FilterCtx) : List Rule → Option FilterCtx
  | [] => some c
  | r :: rs =>
    match addRule env c r with
    | none => none
    | some c2 => addRules env c2 rs

/-- A rule with no argument condition and action `SCMP_ACT_ALLOW`. -/
def allowRule (s : Sysc) : Rule := { action := .ALLOW, sysc := s, conds := [] }

/-- A rule with no argument condition and action `SCMP_ACT_KILL`. -/
def killRule (s : Sysc) : Rule := { action := .KILL, sysc := s, conds := [] }

/-- `syscalls_whitelist` of `c_cpp_rules` (`rule.h` lines 19-33). -/
def syscalls_whitelist : List Sysc :=
  [.read, .fstat, .mmap, .mprotect, .munmap, .uname,
   .arch_prctl, .brk, .access, .exit_group, .close, .readlink,
   .sysinfo, .write, .writev, .lseek, .clock_gettime, .fcntl,
   .pread64, .faccessat, .newfstatat, .set_tid_address,
   .set_robust_list, .rseq, .prlimit64, .futex, .getrandom]

/-- `network_syscalls` of `c_cpp_rules` (`rule.h` lines 43-50). -/
def network_syscalls : List Sysc :=
  [.socket, .connect, .bind, .listen, .accept, .sendto,
   .recvfrom, .setsockopt, .getsockopt, .getpeername, .getsockname]

/-- `syscalls_blacklist` of `general_rules` (`rule.h` lines 110-112). -/
def syscalls_blacklist : List Sysc := [.clone, .fork, .vfork, .kill]

/-- The ordered sequence of rules `c_cpp_rules` attempts to add, straight
from `rule.h` lines 14-82: the execve rule with `SCMP_A0 (SCMP_CMP_EQ,
target)`, the whitelist loop, the network loop when `allow_network`, then
either the two masked open/openat rules (`!allow_write_file`) or the
unconditional open/dup/dup2/dup3 rules. -/
def c_cpp_rule_list (target : Nat) (allow_write_file allow_network : Bool) :
    List Rule :=
  [{ action := .ALLOW, sysc := .execve, conds := [.eq 0 target] }]
  ++ syscalls_whitelist.map allowRule
  ++ (if allow_network then network_syscalls.map allowRule else [])
  ++ (if !allow_write_file then
        [{ action := .ALLOW, sysc := .open_,
           conds := [.maskedEq 1 (O_WRONLY ||| O_RDWR) 0] },
         { action := .ALLOW, sysc := .openat,
           conds := [.maskedEq 2 (O_WRONLY ||| O_RDWR) 0] }]
      else
        [allowRule .open_, allowRule .dup, allowRule .dup2, allowRule .dup3])

/-- The ordered sequence of rules `general_rules` attempts to add,
straight from `rule.h` lines 105-138: the execve rule with
`SCMP_A0 (SCMP_CMP_NE, target)`, the blacklist loop, the four masked KILL
rules for open/openat, and the empty `if (!allow_network)` branch. -/
def general_rule_list (target : Nat) (allow_network : Bool) : List Rule :=
  [{ action := .KILL, sysc := .execve, conds := [.ne 0 target] }]
  ++ syscalls_blacklist.map killRule
  ++ [{ action := .KILL, sysc := .open_,
        conds := [.maskedEq 1 O_WRONLY O_WRONLY] },
      { action := .KILL, sysc := .open_,
        conds := [.maskedEq 1 O_RDWR O_RDWR] },
      { action := .KILL, sysc := .openat,
        conds := [.maskedEq 2 O_WRONLY O_WRONLY] },
      { action := .KILL, sysc := .openat,
        conds := [.maskedEq 2 O_RDWR O_RDWR] }]
  ++ (if !allow_network then [] else [])

/-- `c_cpp_rules` (`rule.h` lines 7-89).  Mirrors the C control flow:
null-context check, sequential rule additions each returning
`LOAD_SECCOMP_FAILED` on failure without releasing the context, the load
step likewise, and `seccomp_release` only after a successful load. -/
def c_cpp_rules (env : Env) (target : Nat)
    (allow_write_file allow_network : Bool) : Outcome :=
  if !env.initOk then
    { ret := LOAD_SECCOMP_FAILED, ctxAllocated := false, released := false,
      loadInvoked := false, loadedPolicy := none }
  else
    match addRules env { defaultAction := .KILL, rules := [] }
        (c_cpp_rule_list target allow_write_file allow_network) with
    | none =>
      { ret := LOAD_SECCOMP_FAILED, ctxAllocated := true, released := false,
        loadInvoked := false, loadedPolicy := none }
    | some c =>
      if env.loadOk then
        { ret := 0, ctxAllocated := true, released := true,
          loadInvoked := true, loadedPolicy := some c }
      else
        { ret := LOAD_SECCOMP_FAILED, ctxAllocated := true, released := false,
          loadInvoked := true, loadedPolicy := none }

/-- `python3_rules` (`rule.h` lines 91-95): the body is `return 0;` —
no context, no rules, no load. -/
def python3_rules (target : Nat) : Outcome :=
  { ret := 0, ctxAllocated := false, released := false,
    loadInvoked := false, loadedPolicy := none }

/-- `general_rules` (`rule.h` lines 97-145), with default action
`SCMP_ACT_ALLOW`; the control flow is identical to `c_cpp_rules`. -/
def general_rules (env : Env) (target : Nat) (allow_network : Bool) :
    Outcome :=
  if !env.initOk then
    { ret := LOAD_SECCOMP_FAILED, ctxAllocated := false, released := false,
      loadInvoked := false, loadedPolicy := none }
  else
    match addRules env { defaultAction := .ALLOW, rules := [] }
        (general_rule_list target allow_network) with
    | none =>
      { ret := LOAD_SECCOMP_FAILED, ctxAllocated := true, released := false,
        loadInvoked := false, loadedPolicy := none }
    | some c =>
      if env.loadOk then
        { ret := 0, ctxAllocated := true, released := true,
          loadInvoked := true, loadedPolicy := some c }
      else
        { ret := LOAD_SECCOMP_FAILED, ctxAllocated := true, released := false,
          loadInvoked := true, loadedPolicy := none }

/-- The policy `c_cpp_rules` installs when every libseccomp call
succeeds: default KILL plus its rule list. -/
def c_cpp_policy (target : Nat) (allow_write_file allow_network : Bool) :
    FilterCtx :=
  { defaultAction := .KILL,
    rules := c_cpp_rule_list target allow_write_file allow_network }

/-- The policy `general_rules` installs when every libseccomp call
succeeds: default ALLOW plus its rule list. -/
def general_policy (target : Nat) (allow_network : Bool) : FilterCtx :=
  { defaultAction := .ALLOW, rules := general_rule_list target allow_network }

/-- An environment in which every libseccomp call succeeds. -/
def envAllOk : Env := { initOk := true, addOk := fun _ => true, loadOk := true }

/-- An environment in which only the final `seccomp_load` fails. -/
def envLoadFail : Env :=
  { initOk := true, addOk := fun _ => true, loadOk := false }

/-- An environment in which every `seccomp_rule_add` fails. -/
def envAddFail : Env :=
  { initOk := true, addOk := fun _ => false, loadOk := true }

/-- Running the rule additions over a list succeeds exactly when every
addition succeeds, and then appends the whole list. -/
theorem addRules_eq (env : Env) (l : List Rule) (c : FilterCtx) :
    addRules env c l =
      if l.all env.addOk then some { c with rules := c.rules ++ l }
      else none := by
  induction l generalizing c with
  | nil => simp [addRules]
  | cons r rs ih =>
    simp only [addRules, addRule, List.all_cons]
    by_cases h : env.addOk r = true
    · simp [h, ih]
    · simp [h]

/-- Closed form of `c_cpp_rules` over the failure environment. -/
theorem c_cpp_rules_cases (env : Env) (target : Nat)
    (allow_write_file allow_network : Bool) :
    c_cpp_rules env target allow_write_file allow_network =
      if env.initOk then
        if (c_cpp_rule_list target allow_write_file allow_network).all
            env.addOk then
          if env.loadOk then
            { ret := 0, ctxAllocated := true, released := true,
              loadInvoked := true,
              loadedPolicy :=
                some (c_cpp_policy target allow_write_file allow_network) }
          else
            { ret := LOAD_SECCOMP_FAILED, ctxAllocated := true,
              released := false, loadInvoked := true, loadedPolicy := none }
        else
          { ret := LOAD_SECCOMP_FAILED, ctxAllocated := true,
            released := false, loadInvoked := false, loadedPolicy := none }
      else
        { ret := LOAD_SECCOMP_FAILED, ctxAllocated := false,
          released := false, loadInvoked := false, loadedPolicy := none } := by
  simp only [c_cpp_rules, addRules_eq, c_cpp_policy]
  cases env.initOk <;> cases h : (c_cpp_rule_list target allow_write_file
      allow_network).all env.addOk <;> cases env.loadOk <;> simp [h]

/-- Closed form of `general_rules` over the failure environment. -/
theorem general_rules_cases (env : Env) (target : Nat)
    (allow_network : Bool) :
    general_rules env target allow_network =
      if env.initOk then
        if (general_rule_list target allow_network).all env.addOk then
          if env.loadOk then
            { ret := 0, ctxAllocated := true, released := true,
              loadInvoked := true,
              loadedPolicy := some (general_policy target allow_network) }
          else
            { ret := LOAD_SECCOMP_FAILED, ctxAllocated := true,
              released := false, loadInvoked := true, loadedPolicy := none }
        else
          { ret := LOAD_SECCOMP_FAILED, ctxAllocated := true,
            released := false, loadInvoked := false, loadedPolicy := none }
      else
        { ret := LOAD_SECCOMP_FAILED, ctxAllocated := false,
          released := false, loadInvoked := false, loadedPolicy := none } := by
  simp only [general_rules, addRules_eq, general_policy]
  cases env.initOk <;> cases h : (general_rule_list target
      allow_network).all env.addOk <;> cases env.loadOk <;> simp [h]

/-- Evaluating a policy whose first rule matches gives that rule's
action; otherwise evaluation continues with the remaining rules. -/
theorem evalPolicy_cons (d : SAction) (r : Rule) (rs : List Rule)
    (s : Sysc) (args : Nat → Nat) :
    evalPolicy { defaultAction := d, rules := r :: rs } s args =
      if matchRule s args r then r.action
      else evalPolicy { defaultAction := d, rules := rs } s args := by
  by_cases h : matchRule s args r = true
  · simp [evalPolicy, List.find?_cons_of_pos _ h, h]
  · simp only [Bool.not_eq_true] at h
    simp [evalPolicy, List.find?_cons_of_neg, h]

/-- A policy with no rules falls to the default action. -/
theorem evalPolicy_nil (d : SAction) (s : Sysc) (args : Nat → Nat) :
    evalPolicy { defaultAction := d, rules := [] } s args = d := rfl

/-- Claim C1: the spec guarantees the filter context is released on every
code path, success or failure.  The code violates this: on a failed rule
addition and on a failed load, both `c_cpp_rules` and `general_rules`
return `LOAD_SECCOMP_FAILED` while the allocated context has not been
released (the only `seccomp_release` call sits after a successful
`seccomp_load`); the context handle leaks on every failure path after a
successful `seccomp_init`. -/
theorem c1_context_leaked_on_failure :
    ((c_cpp_rules envLoadFail 0 false false).ret = LOAD_SECCOMP_FAILED ∧
     (c_cpp_rules envLoadFail 0 false false).ctxAllocated = true ∧
     (c_cpp_rules envLoadFail 0 false false).released = false) ∧
    ((c_cpp_rules envAddFail 0 false false).ret = LOAD_SECCOMP_FAILED ∧
     (c_cpp_rules envAddFail 0 false false).ctxAllocated = true ∧
     (c_cpp_rules envAddFail 0 false false).released = false) ∧
    ((general_rules envLoadFail 0 false).ret = LOAD_SECCOMP_FAILED ∧
     (general_rules envLoadFail 0 false).ctxAllocated = true ∧
     (general_rules envLoadFail 0 false).released = false) ∧
    ((general_rules envAddFail 0 false).ret = LOAD_SECCOMP_FAILED ∧
     (general_rules envAddFail 0 false).ctxAllocated = true ∧
     (general_rules envAddFail 0 false).released = false) ∧
    (c_cpp_rules envAllOk 0 false false).released = true ∧
    (general_rules envAllOk 0 false).released = true := by decide

/-- Claim C2 counterexample: with `allow_write_file = true`, the rule
list of `c_cpp_rules` contains no rule at all for the directory-relative
open variant (`openat`), and a write-only `openat` is killed by the
default action — refuting the claim that both file-open variants receive
unconditional ALLOW rules. -/
theorem c2_counterexample_no_openat_rule :
    (c_cpp_rule_list 0 true false).all
      (fun r => decide (r.sysc ≠ Sysc.openat)) = true ∧
    evalPolicy (c_cpp_policy 0 true false) .openat (fun _ => O_WRONLY) =
      .KILL := by decide

/-- Claim C2 (amended): with `allow_write_file = true`, `c_cpp_rules`
adds unconditional ALLOW rules for the direct-path file-open operation
(`open`) and for file-descriptor duplication (`dup`, `dup2`, `dup3`), so
via `open` both a write-only and a read-write open succeed; the
directory-relative variant (`openat`) receives no rule in this branch and
every `openat`, regardless of access mode, falls through to the default
KILL. -/
theorem c2_write_branch_open_dup_allowed (target : Nat) (anet : Bool)
    (args : Nat → Nat) :
    evalPolicy (c_cpp_policy target true anet) .open_ args = .ALLOW ∧
    evalPolicy (c_cpp_policy target true anet) .dup args = .ALLOW ∧
    evalPolicy (c_cpp_policy target true anet) .dup2 args = .ALLOW ∧
    evalPolicy (c_cpp_policy target true anet) .dup3 args = .ALLOW ∧
    evalPolicy (c_cpp_policy target true anet) .openat args = .KILL := by
  cases anet <;>
    refine ⟨?_, ?_, ?_, ?_, ?_⟩ <;>
    simp +decide [c_cpp_policy, c_cpp_rule_list, syscalls_whitelist,
      network_syscalls, allowRule, evalPolicy_cons, matchRule, evalCond,
      evalPolicy_nil]

/-- Claim C3: with `allow_write_file = false`, an `open` is allowed
exactly when its access-mode argument (argument 1) masked with
`O_WRONLY | O_RDWR` is zero, and an `openat` exactly when its access-mode
argument (argument 2) masked likewise is zero; any write-intending open
falls through to the default KILL. -/
theorem c3_readonly_open_gating (target : Nat) (anet : Bool)
    (args : Nat → Nat) :
    (evalPolicy (c_cpp_policy target false anet) .open_ args =
      if args 1 &&& (O_WRONLY ||| O_RDWR) = 0 then .ALLOW else .KILL) ∧
    (evalPolicy (c_cpp_policy target false anet) .openat args =
      if args 2 &&& (O_WRONLY ||| O_RDWR) = 0 then .ALLOW else .KILL) := by
  cases anet <;>
    constructor <;>
    simp +decide [c_cpp_policy, c_cpp_rule_list, syscalls_whitelist,
      network_syscalls, allowRule, evalPolicy_cons, matchRule, evalCond,
      O_WRONLY, O_RDWR, evalPolicy_nil]

/-- Claim C4: for every target path, every flag setting and every
argument vector, the native-code policy allows `execve` exactly when its
first argument equals the target, and any other first argument is killed
by the default action. -/
theorem c4_execve_only_target (target : Nat) (awf anet : Bool)
    (args : Nat → Nat) :
    evalPolicy (c_cpp_policy target awf anet) .execve args =
      (if args 0 = target then .ALLOW else .KILL) := by
  cases awf <;> cases anet <;>
    simp +decide [c_cpp_policy, c_cpp_rule_list, syscalls_whitelist,
      network_syscalls, allowRule, evalPolicy_cons, matchRule, evalCond] <;>
    by_cases h : args 0 = target <;> simp [h, evalPolicy_nil]

/-- Claim C5: in the fallback policy, `execve` with a first argument
different from the target matches the dedicated KILL rule, while a first
argument equal to the target matches no rule and falls to the default
ALLOW. -/
theorem c5_general_execve_kill_on_mismatch (target : Nat) (anet : Bool)
    (args : Nat → Nat) :
    evalPolicy (general_policy target anet) .execve args =
      (if args 0 = target then .ALLOW else .KILL) := by
  cases anet <;>
    simp +decide [general_policy, general_rule_list, syscalls_blacklist,
      killRule, evalPolicy_cons, matchRule, evalCond, evalPolicy_nil]

/-- Claim C6: in the fallback policy, regardless of the `allow_network`
flag, each of `clone`, `fork`, `vfork` and `kill` is killed
unconditionally, and an `open` (access mode in argument 1) or `openat`
(access mode in argument 2) is killed exactly when the `O_WRONLY` bit or
the `O_RDWR` bits are set under the masked-equality tests; a read-only
open matches neither KILL rule and falls to the default ALLOW. -/
theorem c6_general_blacklist_and_write_denial (target : Nat) (anet : Bool)
    (args : Nat → Nat) :
    evalPolicy (general_policy target anet) .clone args = .KILL ∧
    evalPolicy (general_policy target anet) .fork args = .KILL ∧
    evalPolicy (general_policy target anet) .vfork args = .KILL ∧
    evalPolicy (general_policy target anet) .kill args = .KILL ∧
    (evalPolicy (general_policy target anet) .open_ args =
      if args 1 &&& O_WRONLY = O_WRONLY then .KILL
      else if args 1 &&& O_RDWR = O_RDWR then .KILL
      else .ALLOW) ∧
    (evalPolicy (general_policy target anet) .openat args =
      if args 2 &&& O_WRONLY = O_WRONLY then .KILL
      else if args 2 &&& O_RDWR = O_RDWR then .KILL
      else .ALLOW) := by
  cases anet <;>
    refine ⟨?_, ?_, ?_, ?_, ?_, ?_⟩ <;>
    simp +decide [general_policy, general_rule_list, syscalls_blacklist,
      killRule, evalPolicy_cons, matchRule, evalCond, O_WRONLY, O_RDWR,
      evalPolicy_nil]

/-- Claim C7: `general_rules` never branches on `allow_network` (the
`if (!allow_network)` body is empty), so for every environment and target
the runs with the flag true and false produce the identical outcome, and
the policies built are identical. -/
theorem c7_allow_network_no_effect (env : Env) (target : Nat) :
    general_rules env target true = general_rules env target false ∧
    general_policy target true = general_policy target false :=
  ⟨rfl, rfl⟩

/-- Claim C8: both builders return only 0 or `LOAD_SECCOMP_FAILED = 1`;
the return value is 0 exactly when context creation, every rule addition
and the load all succeed; and the load step is invoked exactly when
context creation and every rule addition succeeded — so a failed rule
addition returns immediately and no partial policy is ever loaded. -/
theorem c8_single_error_code_no_partial_load (env : Env) (target : Nat)
    (awf anet : Bool) :
    ((c_cpp_rules env target awf anet).ret = 0 ∨
     (c_cpp_rules env target awf anet).ret = LOAD_SECCOMP_FAILED) ∧
    (((c_cpp_rules env target awf anet).ret == 0) =
      (env.initOk && (c_cpp_rule_list target awf anet).all env.addOk &&
        env.loadOk)) ∧
    ((c_cpp_rules env target awf anet).loadInvoked =
      (env.initOk && (c_cpp_rule_list target awf anet).all env.addOk)) ∧
    ((general_rules env target anet).ret = 0 ∨
     (general_rules env target anet).ret = LOAD_SECCOMP_FAILED) ∧
    (((general_rules env target anet).ret == 0) =
      (env.initOk && (general_rule_list target anet).all env.addOk &&
        env.loadOk)) ∧
    ((general_rules env target anet).loadInvoked =
      (env.initOk && (general_rule_list target anet).all env.addOk)) := by
  rw [c_cpp_rules_cases, general_rules_cases]
  cases env.initOk <;>
    cases hc : (c_cpp_rule_list target awf anet).all env.addOk <;>
    cases hg : (general_rule_list target anet).all env.addOk <;>
    cases env.loadOk <;>
    simp [LOAD_SECCOMP_FAILED]

/-- Claim C9: `python3_rules` returns 0 for every target and performs no
seccomp interaction at all: no context is created, no load is invoked,
and no policy is installed. -/
theorem c9_python3_rules_noop (target : Nat) :
    python3_rules target =
      { ret := 0, ctxAllocated := false, released := false,
        loadInvoked := false, loadedPolicy := none } := rfl

/-- Claim C10: with `allow_write_file = false`, no rule of the
native-code policy mentions `dup`, `dup2` or `dup3`, so any
file-descriptor duplication is killed by the default action; with
`allow_write_file = true` each of the three is allowed. -/
theorem c10_dup_only_with_write_flag (target : Nat) (anet : Bool)
    (args : Nat → Nat) :
    evalPolicy (c_cpp_policy target false anet) .dup args = .KILL ∧
    evalPolicy (c_cpp_policy target false anet) .dup2 args = .KILL ∧
    evalPolicy (c_cpp_policy target false anet) .dup3 args = .KILL ∧
    evalPolicy (c_cpp_policy target true anet) .dup args = .ALLOW ∧
    evalPolicy (c_cpp_policy target true anet) .dup2 args = .ALLOW ∧
    evalPolicy (c_cpp_policy target true anet) .dup3 args = .ALLOW ∧
    (c_cpp_rule_list target false anet).all
      (fun r => decide (r.sysc ≠ Sysc.dup) && decide (r.sysc ≠ Sysc.dup2)
        && decide (r.sysc ≠ Sysc.dup3)) = true := by
  cases anet <;>
    refine ⟨?_, ?_, ?_, ?_, ?_, ?_, ?_⟩ <;>
    simp +decide [c_cpp_policy, c_cpp_rule_list, syscalls_whitelist,
      network_syscalls, allowRule, evalPolicy_cons, matchRule, evalCond,
      evalPolicy_nil]
